import Mathlib

/-!
Shallow embedding of `nut/ner/ner.py`: the `train` and `predict`
command-line entry points of the NER package.

Python object references (feature functions `fd`/`hd`, vocabularies, index
maps, the regularization float, …) are modelled as opaque identifiers of
type `Obj := Nat`; assigning a field in Python copies the reference, so
equality of identifiers in the embedding is exactly "the very same object".
Side effects (prints, reader construction, model loading, feature
extraction, the training loop, dumping) are recorded as an event trace, and
the control-flow outcome (normal finish, `parser.error`, `sys.exit`, an
uncaught exception) is an explicit outcome value.
-/

/-- Identity of a Python object reference. -/
abbrev Obj := Nat

/-- The command-line options produced by `train_args_parser` in `ner.py`
(lines 23-98): defaults and types follow the `add_option` calls.  The
`--aso` option defaults to Python `False` and is a string when given;
`none` models the default. -/
structure Options where
  verbose : Int := 1
  feature_module : String := "rr09"
  reg : Obj := 0
  epochs : Int := 100
  minc : Int := 1
  max_unlabeled : Int := -1
  lang : String := "en"
  shuffle : Bool := false
  stats : Bool := false
  use_eph : Bool := false
  aso : Option String := none
deriving Repr, DecidableEq

/-- Python truthiness of `options.aso` (default `False`, else a string):
`if options.aso:` is true exactly for a nonempty string. -/
def asoTruthy : Option String → Bool
  | none => false
  | some s => !s.isEmpty

/-- A feature-extraction module from `nut.ner.features`, exposing the
`fd` and `hd` functions (`ner.py` lines 116-117). -/
structure FeatureModule where
  fd : Obj
  hd : Obj
deriving Repr, DecidableEq

/-- The deserialized ASO model object (`compressed_load(options.aso)`,
`ner.py` line 128) with the attributes `train` reads from it. -/
structure ASOModel where
  fd : Obj
  hd : Obj
  lang : String
  use_eph : Bool
  minc : Int
  vocabulary : Obj
  tags : Obj
  fidx_map : Obj
  tidx_map : Obj
  tag_map : Obj
deriving Repr, DecidableEq

/-- The `GreedySVMTagger` as `train` manipulates it.  The constructor
(`ner.py` lines 132-134 and 155-156) receives `fd`, `hd`, `lang` and
`verbose`; every other attribute listed here is one that `train` itself
assigns after construction (lines 140-150), so it is `none` until `train`
sets it. -/
structure Tagger where
  fd : Obj
  hd : Obj
  lang : String
  verbose : Int
  V : Option Obj := none
  T : Option Obj := none
  use_eph : Option Bool := none
  minc : Option Int := none
  fidx_map : Option Obj := none
  tidx_map : Option Obj := none
  tag_map : Option Obj := none
  use_aso : Option Bool := none
  aso_model : Option ASOModel := none
deriving Repr, DecidableEq

/-- Observable side effects of a `train` run, in program order. -/
inductive TrainEvent where
  /-- a `print` statement writing to standard output -/
  | printOut (s : String)
  /-- `conll.Conll03Reader(f_train, options.lang)` (line 123) -/
  | constructReader (file : String) (lang : String)
  /-- `compressed_load(options.aso)` (line 128) -/
  | loadAso (path : String)
  /-- `tagger.GreedySVMTagger(fd, hd, lang=…, verbose=…)` (lines 132, 155) -/
  | constructTagger (fd : Obj) (hd : Obj) (lang : String) (verbose : Int)
  /-- `model.feature_extraction(train_reader, minc=…, use_eph=…)` (line 157) -/
  | featureExtraction (file : String) (minc : Int) (use_eph : Bool)
  /-- `model.train(train_reader, reg=…, epochs=…, shuffle=…)` (line 160) -/
  | trainCall (reg : Obj) (epochs : Int) (shuffle : Bool)
  /-- the `--stats` block (lines 162-169) -/
  | printStats
  /-- `compressed_dump(f_model, model)` (line 171) -/
  | dump (file : String)
deriving Repr, DecidableEq

/-- How a `train` run terminates. -/
inductive TrainOutcome where
  /-- `parser.error(…)`: optparse prints usage and exits (line 107) -/
  | usageError
  /-- `sys.exit(code)` (line 121) -/
  | exited (code : Int)
  /-- an uncaught `Error` exception (lines 136, 138); carries the message
  and the state of the local `model` at the raise -/
  | raised (msg : String) (model : Tagger)
  /-- normal return; carries the final `model` -/
  | finished (model : Tagger)
deriving Repr, DecidableEq

/-- The environment `train` runs in: the outcome of importing a feature
module (`none` models an `ImportError`), and the object graph that
`compressed_load` returns for a given path. -/
structure TrainEnv where
  importMod : String → Option FeatureModule
  asoLoad : String → ASOModel

/-- Lines 123-171 of `ner.py`: the body of `train` after the feature
module has been imported, with `fd`/`hd` the module's functions. -/
def trainCore (env : TrainEnv) (options : Options) (f_train f_model : String)
    (fd hd : Obj) : List TrainEvent × TrainOutcome :=
  let ev0 : List TrainEvent := [.constructReader f_train options.lang]
  if asoTruthy options.aso then
    let path := options.aso.getD ""
    let aso_model := env.asoLoad path
    let ev1 := ev0 ++ [.printOut "Loading ASO model...", .loadAso path,
      .printOut "[done]",
      .constructTagger aso_model.fd aso_model.hd aso_model.lang options.verbose]
    let model : Tagger :=
      { fd := aso_model.fd, hd := aso_model.hd, lang := aso_model.lang,
        verbose := options.verbose }
    if options.use_eph ≠ aso_model.use_eph then
      (ev1, .raised "options.use_eph != aso_model.use_eph." model)
    else if options.lang ≠ aso_model.lang then
      (ev1, .raised "options.lang != aso_model.lang." model)
    else
      let model : Tagger :=
        { model with
          V := some aso_model.vocabulary,
          T := some aso_model.tags,
          use_eph := some aso_model.use_eph,
          minc := some aso_model.minc,
          fidx_map := some aso_model.fidx_map,
          tidx_map := some aso_model.tidx_map,
          tag_map := some aso_model.tag_map,
          use_aso := some true,
          aso_model := some aso_model }
      let ev2 := ev1 ++ [.trainCall options.reg options.epochs options.shuffle]
        ++ (if options.stats then [TrainEvent.printStats] else [])
        ++ [.dump f_model]
      (ev2, .finished model)
  else
    let model : Tagger :=
      { fd := fd, hd := hd, lang := options.lang, verbose := options.verbose }
    let ev1 := ev0 ++ [.constructTagger fd hd options.lang options.verbose,
      .featureExtraction f_train options.minc options.use_eph]
    let ev2 := ev1 ++ [.trainCall options.reg options.epochs options.shuffle]
      ++ (if options.stats then [TrainEvent.printStats] else [])
      ++ [.dump f_model]
    (ev2, .finished model)

/-- Lines 113-171 of `ner.py`: import the feature module (exiting with
`sys.exit(-2)` on `ImportError`, lines 118-121), then run the rest of
`train` on the two positional arguments. -/
def trainMain (env : TrainEnv) (options : Options) (f_train f_model : String) :
    List TrainEvent × TrainOutcome :=
  match env.importMod options.feature_module with
  | none =>
    ([.printOut ("Error: cannot import feature extractors from "
        ++ options.feature_module)], .exited (-2))
  | some mod => trainCore env options f_train f_model mod.fd mod.hd

/-- Lines 104-171 of `ner.py`: the whole `train` entry point.  With other
than two positional arguments, `parser.error` terminates the run
(lines 106-107); otherwise `argv[0]` is the training file and `argv[1]`
the model file (lines 110-111). -/
def train (env : TrainEnv) (options : Options) (argv : List String) :
    List TrainEvent × TrainOutcome :=
  match argv with
  | [f_train, f_model] => trainMain env options f_train f_model
  | _ => ([], .usageError)

/-- The deserialized tagger object as `predict` uses it (`ner.py`
lines 197-207): only the attributes `predict` reads. -/
structure PTagger where
  use_eph : Bool
  use_aso : Bool
  lang : String
deriving Repr, DecidableEq

/-- A Python exception value, identified by its message. -/
abbrev PyErr := String

/-- Destination stream of the predictions (`ner.py` lines 202-205). -/
inductive Dest where
  | stdout
  | file (path : String)
deriving Repr, DecidableEq

/-- Observable side effects of a `predict` run, in program order. -/
inductive PredictEvent where
  /-- the `usage()` help text, a plain `print` to standard output
  (lines 177-185) -/
  | printHelp
  /-- a plain `print` to standard output -/
  | printOut (s : String)
  /-- a `print … >> sys.stderr` statement -/
  | printErr (s : String)
  /-- `compressed_load(argv[0])` (line 197) -/
  | loadModel (path : String)
  /-- `conll.Conll03Reader(argv[1], model.lang)` (line 201) -/
  | constructReader (file : String) (lang : String)
  /-- `open(argv[2], "w+")` (line 203) -/
  | openFile (path : String)
  /-- `test_reader.write_sent_predictions(model, f, raw=False)` (line 207) -/
  | writePredictions (dest : Dest)
  /-- `f.close()` (line 208) -/
  | closeStream (dest : Dest)
deriving Repr, DecidableEq

/-- How a `predict` run terminates.  An uncaught exception terminates the
Python process with exit status 1. -/
inductive PredictOutcome where
  /-- `sys.exit(code)` (lines 189, 193) -/
  | exited (code : Int)
  /-- an uncaught exception propagating out of `predict` -/
  | raised (e : PyErr)
  /-- normal return -/
  | finished
deriving Repr, DecidableEq

/-- Process exit status of a `predict` outcome: the `sys.exit` code, 1 for
an uncaught exception, 0 for a normal return. -/
def PredictOutcome.exitStatus : PredictOutcome → Int
  | .exited code => code
  | .raised _ => 1
  | .finished => 0

/-- The environment `predict` runs in: what `compressed_load` yields for a
model path and what `open(path, "w+")` yields, either raising. -/
structure PredictEnv where
  loadModel : String → Except PyErr PTagger
  openW : String → Except PyErr Obj

/-- Lines 186-209 of `ner.py`: the `predict` entry point over
`sys.argv[1:]`.  `compressed_load` and `open` failures propagate: there is
no `try`/`except` anywhere in `predict`. -/
def predict (env : PredictEnv) (argv : List String) :
    List PredictEvent × PredictOutcome :=
  if argv.contains "--help" || argv.contains "-h" then
    ([.printHelp], .exited (-2))
  else
    match argv with
    | [mfile, tfile, pfile] =>
      match env.loadModel mfile with
      | .error e =>
        ([.printErr "loading tagger...", .loadModel mfile], .raised e)
      | .ok model =>
        let ev0 : List PredictEvent := [.printErr "loading tagger...",
          .loadModel mfile, .printErr "[done]",
          .printErr ("use_eph:  " ++ toString model.use_eph),
          .printErr ("use_aso:  " ++ toString model.use_aso),
          .constructReader tfile model.lang]
        if pfile ≠ "-" then
          match env.openW pfile with
          | .error e => (ev0 ++ [.openFile pfile], .raised e)
          | .ok _ =>
            (ev0 ++ [.openFile pfile, .writePredictions (.file pfile),
              .closeStream (.file pfile),
              .printErr "processed input in … sec."], .finished)
        else
          (ev0 ++ [.writePredictions .stdout, .closeStream .stdout,
            .printErr "processed input in … sec."], .finished)
    | _ =>
      ([.printOut "Error: wrong number of arguments. ", .printHelp],
        .exited (-2))

/-- Does a `train` event execute a training step (`model.train`)? -/
def isTrainCall : TrainEvent → Bool
  | .trainCall _ _ _ => true
  | _ => false

/-- Does a `train` event construct a tagger? -/
def isConstructTagger : TrainEvent → Bool
  | .constructTagger _ _ _ _ => true
  | _ => false

/-- Does a `train` event construct a corpus reader? -/
def isReaderEvent : TrainEvent → Bool
  | .constructReader _ _ => true
  | _ => false

/-- Does a `predict` event load a model file? -/
def isLoadEvent : PredictEvent → Bool
  | .loadModel _ => true
  | _ => false

/-- Does a `predict` event open the prediction output file? -/
def isOpenEvent : PredictEvent → Bool
  | .openFile _ => true
  | _ => false

/-- Concrete feature module for test fixtures. -/
def wMod : FeatureModule := ⟨10, 11⟩

/-- Concrete ASO model matching the default options (`lang = "en"`,
`use_eph = false`). -/
def wAsoMatch : ASOModel :=
  { fd := 1, hd := 2, lang := "en", use_eph := false, minc := 2,
    vocabulary := 3, tags := 4, fidx_map := 5, tidx_map := 6, tag_map := 7 }

/-- Concrete ASO model whose `use_eph` disagrees with the default options. -/
def wAsoMismatch : ASOModel := { wAsoMatch with use_eph := true }

/-- Environment whose feature-module import succeeds and whose ASO load
yields a mismatching model. -/
def wEnvMismatch : TrainEnv :=
  { importMod := fun _ => some wMod, asoLoad := fun _ => wAsoMismatch }

/-- Environment whose feature-module import succeeds and whose ASO load
yields a matching model. -/
def wEnvMatch : TrainEnv :=
  { importMod := fun _ => some wMod, asoLoad := fun _ => wAsoMatch }

/-- Environment whose feature-module import fails. -/
def wEnvNoImport : TrainEnv :=
  { importMod := fun _ => none, asoLoad := fun _ => wAsoMatch }

/-- Default options with an ASO model path given. -/
def wOptsAso : Options := { aso := some "aso.model" }

/-- Concrete deserialized tagger for `predict` fixtures. -/
def wTagger : PTagger := { use_eph := false, use_aso := false, lang := "en" }

/-- `predict` environment where loading and opening both succeed. -/
def wEnvP : PredictEnv :=
  { loadModel := fun _ => .ok wTagger, openW := fun _ => .ok 0 }

/-- `predict` environment where loading the model raises `IOError`. -/
def wEnvPLoadFail : PredictEnv :=
  { loadModel := fun _ => .error "IOError", openW := fun _ => .ok 0 }

/-- C1: for every loaded ASO model and every option setting, if the
command-line `use_eph` flag differs from the ASO model's recorded
`use_eph`, or the command-line language differs from the ASO model's
recorded `lang`, then `train` raises a fatal `Error` at bind time: the
outcome is `raised`, and no training step (`model.train`) appears anywhere
in the event trace. -/
theorem train_aso_mismatch_raises (env : TrainEnv) (o : Options)
    (a b : String) (mod : FeatureModule)
    (himp : env.importMod o.feature_module = some mod)
    (haso : asoTruthy o.aso = true)
    (hmis : o.use_eph ≠ (env.asoLoad (o.aso.getD "")).use_eph ∨
      o.lang ≠ (env.asoLoad (o.aso.getD "")).lang) :
    (∃ msg model, (train env o [a, b]).2 = .raised msg model) ∧
    (∀ reg epochs shuffle,
      TrainEvent.trainCall reg epochs shuffle ∉ (train env o [a, b]).1) := by
  simp only [train, trainMain, himp, trainCore, haso, if_true]
  by_cases heph : o.use_eph = (env.asoLoad (o.aso.getD "")).use_eph
  · have hlang : o.lang ≠ (env.asoLoad (o.aso.getD "")).lang := by
      rcases hmis with h | h
      · exact absurd heph h
      · exact h
    simp [heph, hlang]
  · simp [heph]

/-- Witness for C1 at a concrete mismatching environment. -/
theorem train_aso_mismatch_raises_witness :
    (∃ msg model,
      (train wEnvMismatch wOptsAso ["train.txt", "model.bin"]).2 =
        .raised msg model) ∧
    (∀ reg epochs shuffle,
      TrainEvent.trainCall reg epochs shuffle ∉
        (train wEnvMismatch wOptsAso ["train.txt", "model.bin"]).1) :=
  train_aso_mismatch_raises wEnvMismatch wOptsAso "train.txt" "model.bin"
    wMod rfl rfl (Or.inl (by decide))

/-- C2: for every loaded ASO model whose `use_eph` and `lang` equal the
command-line settings, `train` binds the ASO model without error and
finishes, and the resulting tagger's vocabulary, tag set, index maps and
`aso_model` field are the very same objects held by the loaded ASO model,
with `use_aso` set to `true`. -/
theorem train_aso_match_binds (env : TrainEnv) (o : Options)
    (a b : String) (mod : FeatureModule)
    (himp : env.importMod o.feature_module = some mod)
    (haso : asoTruthy o.aso = true)
    (heph : o.use_eph = (env.asoLoad (o.aso.getD "")).use_eph)
    (hlang : o.lang = (env.asoLoad (o.aso.getD "")).lang) :
    ∃ m, (train env o [a, b]).2 = .finished m ∧
      m.V = some (env.asoLoad (o.aso.getD "")).vocabulary ∧
      m.T = some (env.asoLoad (o.aso.getD "")).tags ∧
      m.fidx_map = some (env.asoLoad (o.aso.getD "")).fidx_map ∧
      m.tidx_map = some (env.asoLoad (o.aso.getD "")).tidx_map ∧
      m.tag_map = some (env.asoLoad (o.aso.getD "")).tag_map ∧
      m.aso_model = some (env.asoLoad (o.aso.getD "")) ∧
      m.use_aso = some true := by
  simp [train, trainMain, himp, trainCore, haso, heph, hlang]

/-- Witness for C2 at a concrete matching environment. -/
theorem train_aso_match_binds_witness :
    ∃ m, (train wEnvMatch wOptsAso ["train.txt", "model.bin"]).2 =
        .finished m ∧
      m.V = some (wEnvMatch.asoLoad (wOptsAso.aso.getD "")).vocabulary ∧
      m.T = some (wEnvMatch.asoLoad (wOptsAso.aso.getD "")).tags ∧
      m.fidx_map = some (wEnvMatch.asoLoad (wOptsAso.aso.getD "")).fidx_map ∧
      m.tidx_map = some (wEnvMatch.asoLoad (wOptsAso.aso.getD "")).tidx_map ∧
      m.tag_map = some (wEnvMatch.asoLoad (wOptsAso.aso.getD "")).tag_map ∧
      m.aso_model = some (wEnvMatch.asoLoad (wOptsAso.aso.getD "")) ∧
      m.use_aso = some true :=
  train_aso_match_binds wEnvMatch wOptsAso "train.txt" "model.bin"
    wMod rfl rfl rfl rfl

/-- C3: for every feature-module name whose import fails, `train` prints
an error and exits with status `-2`, and the trace contains no tagger
construction, no corpus-reader construction, and no training step. -/
theorem train_import_failure (env : TrainEnv) (o : Options) (a b : String)
    (himp : env.importMod o.feature_module = none) :
    train env o [a, b] =
      ([.printOut ("Error: cannot import feature extractors from "
          ++ o.feature_module)], .exited (-2)) ∧
    (∀ fd hd lang v,
      TrainEvent.constructTagger fd hd lang v ∉ (train env o [a, b]).1) ∧
    (∀ f lang,
      TrainEvent.constructReader f lang ∉ (train env o [a, b]).1) ∧
    (∀ reg epochs shuffle,
      TrainEvent.trainCall reg epochs shuffle ∉ (train env o [a, b]).1) := by
  simp [train, trainMain, himp]

/-- Witness for C3 at a concrete failing import. -/
theorem train_import_failure_witness :
    train wEnvNoImport wOptsAso ["train.txt", "model.bin"] =
      ([.printOut ("Error: cannot import feature extractors from "
          ++ wOptsAso.feature_module)], .exited (-2)) ∧
    (∀ fd hd lang v,
      TrainEvent.constructTagger fd hd lang v ∉
        (train wEnvNoImport wOptsAso ["train.txt", "model.bin"]).1) ∧
    (∀ f lang,
      TrainEvent.constructReader f lang ∉
        (train wEnvNoImport wOptsAso ["train.txt", "model.bin"]).1) ∧
    (∀ reg epochs shuffle,
      TrainEvent.trainCall reg epochs shuffle ∉
        (train wEnvNoImport wOptsAso ["train.txt", "model.bin"]).1) :=
  train_import_failure wEnvNoImport wOptsAso "train.txt" "model.bin" rfl

/-- C4: with an ASO model path given, the feature module must still import
successfully or the process exits with `-2` first; when it does import, the
run is invariant under the module's `fd`/`hd` and the `--min-count` value,
and on a successful bind the tagger is configured from the ASO model's own
`fd`, `hd`, `lang`, vocabulary, tag set, `minc` and `use_eph`. -/
theorem train_aso_ignores_cli_config (env : TrainEnv) (o : Options)
    (a b : String)
    (haso : asoTruthy o.aso = true) :
    (env.importMod o.feature_module = none →
      (train env o [a, b]).2 = .exited (-2)) ∧
    (∀ fd₁ hd₁ fd₂ hd₂ minc₁ minc₂,
      trainCore env { o with minc := minc₁ } a b fd₁ hd₁ =
        trainCore env { o with minc := minc₂ } a b fd₂ hd₂) ∧
    (∀ mod, env.importMod o.feature_module = some mod →
      o.use_eph = (env.asoLoad (o.aso.getD "")).use_eph →
      o.lang = (env.asoLoad (o.aso.getD "")).lang →
      ∃ m, (train env o [a, b]).2 = .finished m ∧
        m.fd = (env.asoLoad (o.aso.getD "")).fd ∧
        m.hd = (env.asoLoad (o.aso.getD "")).hd ∧
        m.lang = (env.asoLoad (o.aso.getD "")).lang ∧
        m.V = some (env.asoLoad (o.aso.getD "")).vocabulary ∧
        m.T = some (env.asoLoad (o.aso.getD "")).tags ∧
        m.minc = some (env.asoLoad (o.aso.getD "")).minc ∧
        m.use_eph = some (env.asoLoad (o.aso.getD "")).use_eph) := by
  refine ⟨fun himp => by simp [train, trainMain, himp], ?_, ?_⟩
  · intro fd₁ hd₁ fd₂ hd₂ minc₁ minc₂
    simp [trainCore, haso]
  · intro mod himp heph hlang
    simp [train, trainMain, himp, trainCore, haso, heph, hlang]

/-- Witness for C4 at a concrete environment with an ASO path. -/
theorem train_aso_ignores_cli_config_witness :
    (wEnvMatch.importMod wOptsAso.feature_module = none →
      (train wEnvMatch wOptsAso ["train.txt", "model.bin"]).2 =
        .exited (-2)) ∧
    (∀ fd₁ hd₁ fd₂ hd₂ minc₁ minc₂,
      trainCore wEnvMatch { wOptsAso with minc := minc₁ }
          "train.txt" "model.bin" fd₁ hd₁ =
        trainCore wEnvMatch { wOptsAso with minc := minc₂ }
          "train.txt" "model.bin" fd₂ hd₂) ∧
    (∀ mod, wEnvMatch.importMod wOptsAso.feature_module = some mod →
      wOptsAso.use_eph =
        (wEnvMatch.asoLoad (wOptsAso.aso.getD "")).use_eph →
      wOptsAso.lang = (wEnvMatch.asoLoad (wOptsAso.aso.getD "")).lang →
      ∃ m, (train wEnvMatch wOptsAso ["train.txt", "model.bin"]).2 =
          .finished m ∧
        m.fd = (wEnvMatch.asoLoad (wOptsAso.aso.getD "")).fd ∧
        m.hd = (wEnvMatch.asoLoad (wOptsAso.aso.getD "")).hd ∧
        m.lang = (wEnvMatch.asoLoad (wOptsAso.aso.getD "")).lang ∧
        m.V = some (wEnvMatch.asoLoad (wOptsAso.aso.getD "")).vocabulary ∧
        m.T = some (wEnvMatch.asoLoad (wOptsAso.aso.getD "")).tags ∧
        m.minc = some (wEnvMatch.asoLoad (wOptsAso.aso.getD "")).minc ∧
        m.use_eph =
          some (wEnvMatch.asoLoad (wOptsAso.aso.getD "")).use_eph) :=
  train_aso_ignores_cli_config wEnvMatch wOptsAso "train.txt" "model.bin" rfl

/-- C5: in a run without an ASO model, `train` constructs the tagger, runs
feature extraction over the training corpus with exactly the user-supplied
`minc` and EPH flag, and only afterwards invokes the training loop with the
user-supplied regularization, epoch count and shuffle flag: the trace has
feature extraction at position 2 and the training call at position 3. -/
theorem train_no_aso_order (env : TrainEnv) (o : Options) (a b : String)
    (mod : FeatureModule)
    (himp : env.importMod o.feature_module = some mod)
    (haso : asoTruthy o.aso = false) :
    train env o [a, b] =
      ([.constructReader a o.lang,
        .constructTagger mod.fd mod.hd o.lang o.verbose,
        .featureExtraction a o.minc o.use_eph,
        .trainCall o.reg o.epochs o.shuffle]
        ++ (if o.stats then [TrainEvent.printStats] else [])
        ++ [.dump b],
        .finished { fd := mod.fd, hd := mod.hd, lang := o.lang,
                    verbose := o.verbose }) ∧
    (train env o [a, b]).1[2]? =
      some (.featureExtraction a o.minc o.use_eph) ∧
    (train env o [a, b]).1[3]? =
      some (.trainCall o.reg o.epochs o.shuffle) := by
  simp [train, trainMain, himp, trainCore, haso]

/-- Witness for C5 at a concrete environment without an ASO path. -/
theorem train_no_aso_order_witness :
    train wEnvMatch {} ["train.txt", "model.bin"] =
      ([.constructReader "train.txt" (Options.lang {}),
        .constructTagger wMod.fd wMod.hd (Options.lang {})
          (Options.verbose {}),
        .featureExtraction "train.txt" (Options.minc {})
          (Options.use_eph {}),
        .trainCall (Options.reg {}) (Options.epochs {})
          (Options.shuffle {})]
        ++ (if Options.stats {} then [TrainEvent.printStats] else [])
        ++ [.dump "model.bin"],
        .finished { fd := wMod.fd, hd := wMod.hd, lang := Options.lang {},
                    verbose := Options.verbose {} }) ∧
    (train wEnvMatch {} ["train.txt", "model.bin"]).1[2]? =
      some (.featureExtraction "train.txt" (Options.minc {})
        (Options.use_eph {})) ∧
    (train wEnvMatch {} ["train.txt", "model.bin"]).1[3]? =
      some (.trainCall (Options.reg {}) (Options.epochs {})
        (Options.shuffle {})) :=
  train_no_aso_order wEnvMatch {} "train.txt" "model.bin" wMod rfl rfl

/-- C7: with other than two positional arguments `train` terminates with a
parser usage error and an empty effect trace (so no file is opened and no
model is loaded); with exactly two, the first is the training file (used to
construct the corpus reader) and the second is the model output file (the
dump target of every finished run). -/
theorem train_argument_handling (env : TrainEnv) (o : Options) :
    (∀ argv : List String, argv.length ≠ 2 →
      train env o argv = ([], .usageError)) ∧
    (∀ a b : String, ∀ mod, env.importMod o.feature_module = some mod →
      (train env o [a, b]).1[0]? = some (.constructReader a o.lang) ∧
      ∀ m, (train env o [a, b]).2 = .finished m →
        (train env o [a, b]).1.getLast? = some (.dump b)) := by
  constructor
  · intro argv h
    match argv with
    | [] => rfl
    | [_] => rfl
    | [_, _] => simp at h
    | _ :: _ :: _ :: _ => rfl
  · intro a b mod himp
    by_cases haso : asoTruthy o.aso = true
    · by_cases heph : o.use_eph = (env.asoLoad (o.aso.getD "")).use_eph
      · by_cases hlang : o.lang = (env.asoLoad (o.aso.getD "")).lang
        · by_cases hstats : o.stats = true <;>
            simp [train, trainMain, himp, trainCore, haso, heph, hlang,
              hstats]
        · simp [train, trainMain, himp, trainCore, haso, heph, hlang]
      · simp [train, trainMain, himp, trainCore, haso, heph]
    · by_cases hstats : o.stats = true <;>
        simp [train, trainMain, himp, trainCore, haso, hstats]

/-- Witness for C7 at concrete inputs: one positional argument yields a
usage error, and with two the reader and dump use them positionally. -/
theorem train_argument_handling_witness :
    ((["train.txt"] : List String).length ≠ 2 →
      train wEnvMatch {} ["train.txt"] = ([], .usageError)) ∧
    ((train wEnvMatch {} ["train.txt", "model.bin"]).1[0]? =
      some (.constructReader "train.txt" (Options.lang {})) ∧
      ∀ m, (train wEnvMatch {} ["train.txt", "model.bin"]).2 =
          .finished m →
        (train wEnvMatch {} ["train.txt", "model.bin"]).1.getLast? =
          some (.dump "model.bin")) :=
  ⟨fun h => (train_argument_handling wEnvMatch {}).1 ["train.txt"] h,
    (train_argument_handling wEnvMatch {}).2 "train.txt" "model.bin"
      wMod rfl⟩

/-- C9: when ASO binding fails with the mismatch `Error`, no ASO state has
been attached to the newly constructed tagger: its vocabulary, tag set,
EPH flag, `minc`, index maps, `use_aso` flag and `aso_model` field are all
still unset, because both compatibility checks precede every binding
assignment. -/
theorem train_aso_mismatch_no_binding (env : TrainEnv) (o : Options)
    (a b : String) (mod : FeatureModule)
    (himp : env.importMod o.feature_module = some mod)
    (haso : asoTruthy o.aso = true)
    (hmis : o.use_eph ≠ (env.asoLoad (o.aso.getD "")).use_eph ∨
      o.lang ≠ (env.asoLoad (o.aso.getD "")).lang) :
    ∃ msg m, (train env o [a, b]).2 = .raised msg m ∧
      m.V = none ∧ m.T = none ∧ m.use_eph = none ∧ m.minc = none ∧
      m.fidx_map = none ∧ m.tidx_map = none ∧ m.tag_map = none ∧
      m.use_aso = none ∧ m.aso_model = none := by
  simp only [train, trainMain, himp, trainCore, haso, if_true]
  by_cases heph : o.use_eph = (env.asoLoad (o.aso.getD "")).use_eph
  · have hlang : o.lang ≠ (env.asoLoad (o.aso.getD "")).lang := by
      rcases hmis with h | h
      · exact absurd heph h
      · exact h
    simp [heph, hlang]
    exact ⟨_, _, ⟨rfl, rfl⟩, rfl, rfl, rfl, rfl, rfl, rfl, rfl, rfl, rfl⟩
  · simp [heph]
    exact ⟨_, _, ⟨rfl, rfl⟩, rfl, rfl, rfl, rfl, rfl, rfl, rfl, rfl, rfl⟩

/-- Witness for C9 at a concrete mismatching environment. -/
theorem train_aso_mismatch_no_binding_witness :
    ∃ msg m,
      (train wEnvMismatch wOptsAso ["t.txt", "m.bin"]).2 = .raised msg m ∧
      m.V = none ∧ m.T = none ∧ m.use_eph = none ∧ m.minc = none ∧
      m.fidx_map = none ∧ m.tidx_map = none ∧ m.tag_map = none ∧
      m.use_aso = none ∧ m.aso_model = none :=
  train_aso_mismatch_no_binding wEnvMismatch wOptsAso "t.txt" "m.bin"
    wMod rfl rfl (Or.inl (by decide))

/-- C6: in a three-argument `predict` run whose model load succeeds,
predictions are written to standard output if and only if the PRED_FILE
argument is `"-"`; for any other value that named file is opened for
writing and receives the predictions. -/
theorem predict_output_destination (env : PredictEnv) (m t p : String)
    (model : PTagger) (obj : Obj)
    (hh1 : ([m, t, p] : List String).contains "--help" = false)
    (hh2 : ([m, t, p] : List String).contains "-h" = false)
    (hload : env.loadModel m = .ok model)
    (hopen : env.openW p = .ok obj) :
    (PredictEvent.writePredictions .stdout ∈ (predict env [m, t, p]).1 ↔
      p = "-") ∧
    (p ≠ "-" →
      PredictEvent.openFile p ∈ (predict env [m, t, p]).1 ∧
      PredictEvent.writePredictions (.file p) ∈
        (predict env [m, t, p]).1) := by
  simp at hh1 hh2
  by_cases hp : p = "-"
  · simp [predict, hh1, hh2, hload, hp]
  · simp [predict, hh1, hh2, hload, hopen, hp]

/-- Witness for C6 at concrete arguments with PRED_FILE a named file. -/
theorem predict_output_destination_witness :
    (PredictEvent.writePredictions .stdout ∈
        (predict wEnvP ["m.bin", "test.txt", "pred.txt"]).1 ↔
      "pred.txt" = "-") ∧
    ("pred.txt" ≠ "-" →
      PredictEvent.openFile "pred.txt" ∈
        (predict wEnvP ["m.bin", "test.txt", "pred.txt"]).1 ∧
      PredictEvent.writePredictions (.file "pred.txt") ∈
        (predict wEnvP ["m.bin", "test.txt", "pred.txt"]).1) :=
  predict_output_destination wEnvP "m.bin" "test.txt" "pred.txt"
    wTagger 0 (by decide) (by decide) rfl rfl

/-- C8: a failure loading the model file, or opening a named prediction
file, propagates uncaught out of `predict` (outcome `raised`, non-zero
process status), and the trace shows no retry: at most one load event and
at most one open event. -/
theorem predict_failure_propagates (env : PredictEnv) (m t p : String)
    (e : PyErr)
    (hh1 : ([m, t, p] : List String).contains "--help" = false)
    (hh2 : ([m, t, p] : List String).contains "-h" = false)
    (hfail : env.loadModel m = .error e ∨
      (∃ model, env.loadModel m = .ok model ∧ p ≠ "-" ∧
        env.openW p = .error e)) :
    (predict env [m, t, p]).2 = .raised e ∧
    (predict env [m, t, p]).2.exitStatus ≠ 0 ∧
    ((predict env [m, t, p]).1.filter isLoadEvent).length ≤ 1 ∧
    ((predict env [m, t, p]).1.filter isOpenEvent).length ≤ 1 := by
  simp at hh1 hh2
  rcases hfail with hload | ⟨model, hload, hp, hopen⟩
  · simp [predict, hh1, hh2, hload, isLoadEvent, isOpenEvent,
      PredictOutcome.exitStatus]
  · simp [predict, hh1, hh2, hload, hp, hopen, isLoadEvent, isOpenEvent,
      PredictOutcome.exitStatus]

/-- Witness for C8 at a concrete environment whose model load raises. -/
theorem predict_failure_propagates_witness :
    (predict wEnvPLoadFail ["m.bin", "test.txt", "pred.txt"]).2 =
      .raised "IOError" ∧
    (predict wEnvPLoadFail ["m.bin", "test.txt", "pred.txt"]).2.exitStatus
      ≠ 0 ∧
    ((predict wEnvPLoadFail
      ["m.bin", "test.txt", "pred.txt"]).1.filter isLoadEvent).length ≤ 1 ∧
    ((predict wEnvPLoadFail
      ["m.bin", "test.txt", "pred.txt"]).1.filter isOpenEvent).length ≤ 1 :=
  predict_failure_propagates wEnvPLoadFail "m.bin" "test.txt" "pred.txt"
    "IOError" (by decide) (by decide) (Or.inl rfl)

/-- C10: after writing the sentence predictions, `predict`
unconditionally closes the output stream — the trace ends with a close of
the very destination that was written, followed only by a timing message
on standard error — and when PRED_FILE is `"-"` the closed stream is the
process's standard output. -/
theorem predict_closes_stream (env : PredictEnv) (m t p : String)
    (model : PTagger) (obj : Obj)
    (hh1 : ([m, t, p] : List String).contains "--help" = false)
    (hh2 : ([m, t, p] : List String).contains "-h" = false)
    (hload : env.loadModel m = .ok model)
    (hopen : env.openW p = .ok obj) :
    (∃ pre, (predict env [m, t, p]).1 = pre ++
      [.writePredictions (if p = "-" then Dest.stdout else .file p),
        .closeStream (if p = "-" then Dest.stdout else .file p),
        .printErr "processed input in … sec."]) ∧
    (p = "-" →
      PredictEvent.closeStream .stdout ∈ (predict env [m, t, p]).1) := by
  simp at hh1 hh2
  by_cases hp : p = "-"
  · refine ⟨⟨[.printErr "loading tagger...", .loadModel m,
      .printErr "[done]", .printErr ("use_eph:  " ++ toString model.use_eph),
      .printErr ("use_aso:  " ++ toString model.use_aso),
      .constructReader t model.lang], ?_⟩, ?_⟩ <;>
      simp [predict, hh1, hh2, hload, hp]
  · refine ⟨⟨[.printErr "loading tagger...", .loadModel m,
      .printErr "[done]", .printErr ("use_eph:  " ++ toString model.use_eph),
      .printErr ("use_aso:  " ++ toString model.use_aso),
      .constructReader t model.lang, .openFile p], ?_⟩, ?_⟩ <;>
      simp [predict, hh1, hh2, hload, hopen, hp]

/-- Witness for C10 with PRED_FILE equal to `"-"`: standard output itself
is closed. -/
theorem predict_closes_stream_witness :
    (∃ pre, (predict wEnvP ["m.bin", "test.txt", "-"]).1 = pre ++
      [.writePredictions (if "-" = "-" then Dest.stdout else .file "-"),
        .closeStream (if "-" = "-" then Dest.stdout else .file "-"),
        .printErr "processed input in … sec."]) ∧
    ("-" = "-" →
      PredictEvent.closeStream .stdout ∈
        (predict wEnvP ["m.bin", "test.txt", "-"]).1) :=
  predict_closes_stream wEnvP "m.bin" "test.txt" "-" wTagger 0
    (by decide) (by decide) rfl rfl
